import Mathlib

/-!
Shallow embedding of the webchat server's presence / conversation-state
synchronization core (src/socket/handlers.js, src/routes/*.js,
src/config/database.js) and proofs about it.

Conventions of the embedding:
* SQL rows become Lean structures; an SQL `NULL` boolean column is modelled
  as `false` (the code only ever tests `IS NULL OR = FALSE`), and a nullable
  timestamp column is modelled as a `Bool` recording whether it is set.
* JavaScript `Map`s become association lists with unique keys maintained by
  `setEntry`; JavaScript `Set`s become duplicate-free lists.
* Socket.io emissions are recorded as a list of `Emit` values (target,
  event name, and the payload component a claim needs); payload fields that
  no claim inspects are elided.
* Database auto-increment ids are modelled by explicit counters.
-/

namespace WebChat

/-- A row of the `users` table (the columns the core reads). -/
structure UserRow where
  id : Nat
  username : String
  displayName : String
  status : String
  isActive : Bool
  deriving DecidableEq, Repr

/-- A row of the `rooms` table. -/
structure RoomRow where
  id : Nat
  name : String
  displayName : String
  isPrivate : Bool
  isActive : Bool
  deriving DecidableEq, Repr

/-- A row of the `room_members` table. -/
structure MemberRow where
  roomId : Nat
  userId : Nat
  role : String
  isActive : Bool
  deriving DecidableEq, Repr

/-- A row of the `friends` table. -/
structure FriendRow where
  id : Nat
  requesterId : Nat
  addresseeId : Nat
  status : String
  deriving DecidableEq, Repr

/-- A row of the `dm_conversations` table: `user1Deleted`/`user2Deleted`
record whether `user1_deleted_at`/`user2_deleted_at` is non-NULL. -/
structure ConvRow where
  id : Nat
  user1 : Nat
  user2 : Nat
  isActive : Bool
  user1Hidden : Bool
  user2Hidden : Bool
  user1Deleted : Bool
  user2Deleted : Bool
  lastMessageAt : Nat
  deriving DecidableEq, Repr

/-- A row of the `messages` table. -/
structure MessageRow where
  id : Nat
  senderId : Nat
  roomId : Option Nat
  recipientId : Option Nat
  content : String
  isDeleted : Bool
  deriving DecidableEq, Repr

/-- Where a socket.io emission is addressed. -/
inductive EmitTarget where
  /-- `io.emit(...)`: every live connection. -/
  | all : EmitTarget
  /-- `socket.emit(...)`: the originating connection only. -/
  | sender : EmitTarget
  /-- `io.to(socketId).emit(...)`: one specific connection. -/
  | sock : Nat → EmitTarget
  /-- `io.to('room_' + roomId).emit(...)`: the live room group. -/
  | room : Nat → EmitTarget
  deriving DecidableEq, Repr

/-- One recorded socket.io emission. -/
structure Emit where
  target : EmitTarget
  event : String
  arg : String
  deriving DecidableEq, Repr

/-- The server's state: persisted tables plus the in-memory presence maps
`userSessions` (user id → set of socket ids) and `connectedUsers`
(user id → the latest connection's socket id) from socket/handlers.js. -/
structure ServerState where
  users : List UserRow
  rooms : List RoomRow
  members : List MemberRow
  friends : List FriendRow
  convs : List ConvRow
  messages : List MessageRow
  nextMessageId : Nat
  nextFriendId : Nat
  userSessions : List (Nat × List Nat)
  connectedUsers : List (Nat × Nat)
  deriving DecidableEq, Repr

/-- Association-list lookup (JavaScript `Map.get`). -/
def lookup {α : Type} (l : List (Nat × α)) (k : Nat) : Option α :=
  (l.find? (fun p => p.1 == k)).map (fun p => p.2)

/-- Association-list insert-or-overwrite (JavaScript `Map.set`). -/
def setEntry {α : Type} (l : List (Nat × α)) (k : Nat) (v : α) : List (Nat × α) :=
  if l.any (fun p => p.1 == k) then
    l.map (fun p => if p.1 == k then (k, v) else p)
  else l ++ [(k, v)]

/-- Association-list removal (JavaScript `Map.delete`). -/
def removeEntry {α : Type} (l : List (Nat × α)) (k : Nat) : List (Nat × α) :=
  l.filter (fun p => p.1 != k)

/-- `userQueries.findById`: first user row with this id and `is_active = TRUE`. -/
def findUserById (users : List UserRow) (id : Nat) : Option UserRow :=
  users.find? (fun u => u.id == id && u.isActive)

/-- `userQueries.updateStatus`: set `status` on every row with this id. -/
def updateUserStatus (users : List UserRow) (id : Nat) (st : String) : List UserRow :=
  users.map (fun u => if u.id == id then { u with status := st } else u)

/-- Comparison used by `ORDER BY r.name` in `roomQueries.getUserRooms`:
lexicographic order on the name, modelled on the character list. -/
def roomNameLe (a b : RoomRow) : Prop := a.name.data ≤ b.name.data

instance : DecidableRel roomNameLe := fun a b =>
  inferInstanceAs (Decidable (a.name.data ≤ b.name.data))

instance : IsTotal RoomRow roomNameLe := ⟨fun a b => le_total a.name.data b.name.data⟩

instance : IsTrans RoomRow roomNameLe := ⟨fun _ _ _ hab hbc => le_trans hab hbc⟩

/-- `roomQueries.getUserRooms`: the SQL join of `rooms` with `room_members`,
restricted to this user's active memberships in active rooms, ordered by the
room's URL-safe `name` column (`ORDER BY r.name`). -/
def getUserRooms (rooms : List RoomRow) (members : List MemberRow) (uid : Nat) :
    List RoomRow :=
  let joined := rooms.flatMap (fun r =>
    (members.filter (fun m => m.roomId == r.id)).map (fun m => (r, m)))
  let sel := (joined.filter (fun p =>
    p.2.userId == uid && p.1.isActive && p.2.isActive)).map (fun p => p.1)
  sel.insertionSort roomNameLe

/-- JavaScript `String.prototype.trim` on the character list. -/
def jsTrimList (l : List Char) : List Char :=
  ((l.dropWhile Char.isWhitespace).reverse.dropWhile Char.isWhitespace).reverse

/-- JavaScript `String.prototype.trim`. -/
def jsTrim (s : String) : String := String.mk (jsTrimList s.data)

/-- `broadcastStatusUpdate` from socket/handlers.js: looks the user up with
`findById` (returning silently when absent), emits `user_status_changed` and
`refresh_friends_status` to everyone, then `refresh_room_users` to each of the
user's rooms. The `arg` of `user_status_changed` records the status payload. -/
def broadcastStatusUpdate (st : ServerState) (targetUserId : Nat) (status : String) :
    List Emit :=
  match findUserById st.users targetUserId with
  | none => []
  | some _ =>
    ⟨.all, "user_status_changed", status⟩ ::
    ⟨.all, "refresh_friends_status", ""⟩ ::
    (getUserRooms st.rooms st.members targetUserId).map
      (fun r => ⟨.room r.id, "refresh_room_users", ""⟩)

/-- Add a socket id to a user's session set, as the top of `socketHandlers`
does: create the set when absent, then `Set.add` (no duplicates). -/
def addSession (ss : List (Nat × List Nat)) (uid sid : Nat) : List (Nat × List Nat) :=
  match lookup ss uid with
  | some sids => setEntry ss uid (if sids.contains sid then sids else sids ++ [sid])
  | none => ss ++ [(uid, [sid])]

/-- One full connection of socket `sid` for user `uid`: the registration at
the top of `socketHandlers` (`connectedUsers.set`, session-set add) followed by
`initializeUser` (persist `status = 'online'`, push the initial views to the
new connection, `broadcastStatusUpdate(uid, 'online')`, push online users).
Payload-only pushes are recorded with an empty `arg`. -/
def connect (st : ServerState) (uid sid : Nat) : ServerState × List Emit :=
  let st1 := { st with
    connectedUsers := setEntry st.connectedUsers uid sid,
    userSessions := addSession st.userSessions uid sid }
  let st2 := { st1 with users := updateUserStatus st1.users uid "online" }
  (st2,
    ⟨.sender, "rooms_list", ""⟩ ::
    ⟨.sender, "dm_conversations", ""⟩ ::
    ⟨.sender, "friends_list_updated", ""⟩ ::
    ⟨.sender, "friend_requests_count_updated", ""⟩ ::
    (broadcastStatusUpdate st2 uid "online" ++ [⟨.sender, "online_users", ""⟩]))

/-- The `disconnect` handler from socket/handlers.js: remove this socket from
the user's session set; when the set becomes empty, delete both presence
entries, persist `status = 'offline'` and broadcast; otherwise keep the user
online and emit nothing. -/
def disconnect (st : ServerState) (uid sid : Nat) : ServerState × List Emit :=
  match lookup st.userSessions uid with
  | none => (st, [])
  | some sids =>
    let sids' := sids.filter (fun s => s != sid)
    if sids'.isEmpty then
      let st1 := { st with
        userSessions := removeEntry st.userSessions uid,
        connectedUsers := removeEntry st.connectedUsers uid }
      let st2 := { st1 with users := updateUserStatus st1.users uid "offline" }
      (st2, broadcastStatusUpdate st2 uid "offline")
    else
      ({ st with userSessions := setEntry st.userSessions uid sids' }, [])

/-- `notifyUser` from socket/handlers.js: find the target user's entry in
`connectedUsers` and emit the event to that single stored socket id; no
entry means no emission. -/
def notifyUser (st : ServerState) (targetUserId : Nat) (event : String) : List Emit :=
  match st.connectedUsers.find? (fun p => p.1 == targetUserId) with
  | some p => [⟨.sock p.2, event, ""⟩]
  | none => []

/-- `notifyUserViaSocket` from routes/messages.js: scan `io.sockets.sockets`
(modelled as a list of socket id × session user id) and emit to the first
socket whose session user id matches, then `break`. -/
def notifyUserViaSocket (sockets : List (Nat × Nat)) (uid : Nat) (event : String) :
    List Emit :=
  match sockets.find? (fun p => p.2 == uid) with
  | some p => [⟨.sock p.1, event, ""⟩]
  | none => []

/-- Number of live sessions the presence registry records for a user. -/
def sessionCount (st : ServerState) (uid : Nat) : Nat :=
  match lookup st.userSessions uid with
  | some sids => sids.length
  | none => 0

/-- The persisted status of a user, read back through `findById`. -/
def persistedStatus (st : ServerState) (uid : Nat) : Option String :=
  (findUserById st.users uid).map (fun u => u.status)

/-- Number of `user_status_changed` broadcasts carrying the given status. -/
def countStatusBroadcasts (es : List Emit) (status : String) : Nat :=
  es.countP (fun e => e.event == "user_status_changed" && e.arg == status)

/-- Comparison used by `ORDER BY dc.last_message_at DESC`. -/
def convRecentLe (a b : ConvRow) : Prop := b.lastMessageAt ≤ a.lastMessageAt

instance : DecidableRel convRecentLe := fun a b =>
  inferInstanceAs (Decidable (b.lastMessageAt ≤ a.lastMessageAt))

/-- The `WHERE` clause of the conversation-list query (GET /api/conversations
and `getDMConversationsForUser` in socket/handlers.js): the user participates,
the conversation is active, and this user's own side is neither hidden nor
deleted. -/
def convSelectedFor (c : ConvRow) (uid : Nat) : Bool :=
  (c.user1 == uid || c.user2 == uid) && c.isActive &&
    ((c.user1 == uid && !c.user1Hidden && !c.user1Deleted) ||
     (c.user2 == uid && !c.user2Hidden && !c.user2Deleted))

/-- GET /api/conversations: the user's visible DM conversations, most recent
message first. -/
def dmConversations (convs : List ConvRow) (uid : Nat) : List ConvRow :=
  (convs.filter (fun c => convSelectedFor c uid)).insertionSort convRecentLe

/-- PUT /api/conversations/:conversationId/hide: look the conversation up
(participant, active), 404 when absent, else set this user's own hidden
column. Returns the new state and whether the request succeeded. -/
def hideConversation (st : ServerState) (uid cid : Nat) : ServerState × Bool :=
  match st.convs.find? (fun c =>
      c.id == cid && (c.user1 == uid || c.user2 == uid) && c.isActive) with
  | none => (st, false)
  | some c =>
    let isUser1 := c.user1 == uid
    let convs' := st.convs.map (fun d =>
      if d.id == cid then
        (if isUser1 then { d with user1Hidden := true } else { d with user2Hidden := true })
      else d)
    ({ st with convs := convs' }, true)

/-- DELETE /api/conversations/:conversationId: look the conversation up
(participant, active), 404 when absent; else stamp this user's own
`deleted_at` column, and — when the fetched row shows the other side already
deleted — set `is_active = FALSE` and soft-delete every message whose sender
and recipient are both among the two participants. -/
def deleteConversation (st : ServerState) (uid cid : Nat) : ServerState × Bool :=
  match st.convs.find? (fun c =>
      c.id == cid && (c.user1 == uid || c.user2 == uid) && c.isActive) with
  | none => (st, false)
  | some c =>
    let isUser1 := c.user1 == uid
    let otherUserDeleted := if isUser1 then c.user2Deleted else c.user1Deleted
    let convs1 := st.convs.map (fun d =>
      if d.id == cid then
        (if isUser1 then { d with user1Deleted := true } else { d with user2Deleted := true })
      else d)
    if otherUserDeleted then
      let convs2 := convs1.map (fun d =>
        if d.id == cid then { d with isActive := false } else d)
      let msgs := st.messages.map (fun m =>
        if (m.senderId == c.user1 || m.senderId == c.user2) &&
           (m.recipientId == some c.user1 || m.recipientId == some c.user2)
        then { m with isDeleted := true } else m)
      ({ st with convs := convs2, messages := msgs }, true)
    else
      ({ st with convs := convs1 }, true)

/-- DELETE /api/friends/:friendshipId: find the friendship row involving the
current user (joined against both user rows), 404 when absent, else delete
the row. The route performs no socket.io emission, so the emission list of a
successful call is always empty. -/
def deleteFriendship (st : ServerState) (uid fid : Nat) :
    ServerState × List Emit × Bool :=
  match st.friends.find? (fun f =>
      f.id == fid && (f.requesterId == uid || f.addresseeId == uid) &&
      st.users.any (fun u => u.id == f.requesterId) &&
      st.users.any (fun u => u.id == f.addresseeId)) with
  | none => (st, [], false)
  | some _ =>
    ({ st with friends := st.friends.filter (fun f => !(f.id == fid)) }, [], true)

/-- GET /api/friends/status/:userId: resolve the single friendship row (in
either orientation) to the current user's perspective. -/
def friendshipStatus (st : ServerState) (uid target : Nat) : String :=
  if uid == target then "self"
  else
    match st.friends.find? (fun f =>
        (f.requesterId == uid && f.addresseeId == target) ||
        (f.requesterId == target && f.addresseeId == uid)) with
    | none => "none"
    | some f =>
      if f.status == "accepted" then "friends"
      else if f.status == "pending" then
        (if f.requesterId == uid then "sent_request" else "received_request")
      else if f.status == "rejected" then "rejected"
      else if f.status == "blocked" then "blocked"
      else "none"

/-- Outcome of POST /api/friends/request/:userId. -/
inductive FriendReqResult where
  | selfRequest : FriendReqResult
  | userNotFound : FriendReqResult
  | conflictAccepted : FriendReqResult
  | conflictPending : FriendReqResult
  | forbiddenBlocked : FriendReqResult
  | ok : FriendReqResult
  deriving DecidableEq, Repr

/-- POST /api/friends/request/:userId: reject self-requests, 404 unknown
targets; with an existing row, `accepted`/`pending` are 409 Conflict,
`blocked` is 403, `rejected` is updated in place to `pending` (no insert, the
switch then falls through to the success response); with no row a fresh
`pending` row is inserted. -/
def sendFriendRequest (st : ServerState) (uid target : Nat) :
    ServerState × FriendReqResult :=
  if uid == target then (st, .selfRequest)
  else
    match st.users.find? (fun u => u.id == target && u.isActive) with
    | none => (st, .userNotFound)
    | some _ =>
      match st.friends.find? (fun f =>
          (f.requesterId == uid && f.addresseeId == target) ||
          (f.requesterId == target && f.addresseeId == uid)) with
      | some ef =>
        if ef.status == "accepted" then (st, .conflictAccepted)
        else if ef.status == "pending" then (st, .conflictPending)
        else if ef.status == "blocked" then (st, .forbiddenBlocked)
        else if ef.status == "rejected" then
          ({ st with friends := st.friends.map (fun f =>
              if f.id == ef.id then { f with status := "pending" } else f) }, .ok)
        else (st, .ok)
      | none =>
        ({ st with
            friends := st.friends ++ [⟨st.nextFriendId, uid, target, "pending"⟩],
            nextFriendId := st.nextFriendId + 1 }, .ok)

/-- Outcome of POST /api/rooms/:roomId/leave. -/
inductive LeaveResult where
  | notMember : LeaveResult
  | mainRoomForbidden : LeaveResult
  | ownerForbidden : LeaveResult
  | ok : Bool → LeaveResult
  deriving DecidableEq, Repr

/-- Whether the optionally-found room is the distinguished main room
(`room?.name === 'main'`; an absent row compares unequal). -/
def isMainRoom (room : Option RoomRow) : Bool :=
  match room with
  | some r => r.name == "main"
  | none => false

/-- POST /api/rooms/:roomId/leave: 404 without an active membership; 403 for
the main room; 403 for an owner while other active members remain; otherwise
deactivate the membership and, when no active members remain and the room is
not main, soft-delete the room (`is_active = FALSE`). `ok deleted` records
whether the room was auto-deleted. -/
def leaveRoom (st : ServerState) (uid rid : Nat) : ServerState × LeaveResult :=
  match st.members.find? (fun m =>
      m.roomId == rid && m.userId == uid && m.isActive) with
  | none => (st, .notMember)
  | some mem =>
    let room := st.rooms.find? (fun r => r.id == rid && r.isActive)
    if isMainRoom room then (st, .mainRoomForbidden)
    else if mem.role == "owner" &&
        0 < st.members.countP (fun m =>
          m.roomId == rid && m.userId != uid && m.isActive) then
      (st, .ownerForbidden)
    else
      let members1 := st.members.map (fun m =>
        if m.roomId == rid && m.userId == uid then { m with isActive := false } else m)
      let remaining := members1.countP (fun m => m.roomId == rid && m.isActive)
      if remaining == 0 && !(isMainRoom room) then
        ({ st with
            members := members1,
            rooms := st.rooms.map (fun r =>
              if r.id == rid then { r with isActive := false } else r) }, .ok true)
      else
        ({ st with members := members1 }, .ok false)

/-- The `send_message` socket handler: empty/whitespace-only content and
content over 2000 characters are rejected with an `error` emission to the
sender (the length check is on the raw, untrimmed content); the membership
check follows; on success the trimmed message row is persisted, and — when
the sender's user row is found for the payload — `new_message` is broadcast
to the live room group (a missing sender row throws after the insert and is
caught as an `error` emission to the sender). -/
def sendMessage (st : ServerState) (uid rid : Nat) (content : String) :
    ServerState × List Emit :=
  if content == "" || (jsTrim content).length == 0 then
    (st, [⟨.sender, "error", "Message content is required"⟩])
  else if 2000 < content.length then
    (st, [⟨.sender, "error", "Message too long (max 2000 characters)"⟩])
  else
    match st.members.find? (fun m =>
        m.roomId == rid && m.userId == uid && m.isActive) with
    | none => (st, [⟨.sender, "error", "Access denied to room"⟩])
    | some _ =>
      let mid := st.nextMessageId
      let st' := { st with
        messages := st.messages ++ [⟨mid, uid, some rid, none, jsTrim content, false⟩],
        nextMessageId := mid + 1 }
      match findUserById st.users uid with
      | none => (st', [⟨.sender, "error", "Failed to send message"⟩])
      | some _ => (st', [⟨.room rid, "new_message", jsTrim content⟩])

/-- Spec-side notion for C9, from the spec's words "alphabetical by display
name": consecutive rooms are ordered lexicographically by display name. -/
def sortedByDisplayName (l : List RoomRow) : Prop :=
  l.Pairwise (fun a b => a.displayName.data ≤ b.displayName.data)

instance (l : List RoomRow) : Decidable (sortedByDisplayName l) :=
  List.instDecidablePairwise l

/-- Concrete server state for the presence scenarios: a single registered
user `alice` (id 1), initially offline with no live sessions. -/
def c1State : ServerState :=
  ⟨[⟨1, "alice", "Alice", "offline", true⟩], [], [], [], [], [], 1, 1, [], []⟩

/-- Concrete state for the multi-device delivery scenario: user `bob`
(id 2) about to open two connections. -/
def c3State : ServerState :=
  ⟨[⟨2, "bob", "Bob", "offline", true⟩], [], [], [], [], [], 1, 1, [], []⟩

/-- A whitespace-padded message: 2000 spaces followed by one letter, so the
trimmed content has length 1 but the raw content has length 2001. -/
def c7LongContent : String := String.mk (List.replicate 2000 ' ' ++ ['a'])

/-- Concrete state for the send_message scenario: user 1 is an active member
of room 5. -/
def c7State : ServerState :=
  ⟨[⟨1, "alice", "Alice", "online", true⟩], [⟨5, "general", "General", false, true⟩],
    [⟨5, 1, "member", true⟩], [], [], [], 1, 1, [], []⟩

def c2StateTwo : ServerState :=
  ⟨[⟨1, "alice", "Alice", "online", true⟩], [], [], [], [], [], 1, 1, [(1, [1, 2])], [(1, 2)]⟩

def c2StateOne : ServerState :=
  ⟨[⟨1, "alice", "Alice", "online", true⟩], [], [], [], [], [], 1, 1, [(1, [5])], [(1, 5)]⟩

def c3WState : ServerState :=
  ⟨[⟨3, "carol", "Carol", "online", true⟩], [], [], [], [], [], 1, 1, [(3, [9])], [(3, 9)]⟩

def c4State : ServerState :=
  ⟨[⟨1, "alice", "Alice", "online", true⟩, ⟨2, "bob", "Bob", "online", true⟩],
    [], [], [], [⟨30, 1, 2, true, false, false, false, false, 5⟩],
    [⟨100, 1, none, some 2, "hi", false⟩], 101, 1, [], []⟩

def c6State : ServerState :=
  ⟨[], [⟨4, "random", "Random", false, true⟩], [⟨4, 6, "owner", true⟩], [], [], [], 1, 1, [], []⟩

def c6MainState : ServerState :=
  ⟨[], [⟨1, "main", "Main", false, true⟩],
    [⟨1, 6, "member", true⟩, ⟨1, 7, "member", true⟩], [], [], [], 1, 1, [], []⟩

def c8State : ServerState :=
  ⟨[⟨1, "alice", "Alice", "online", true⟩, ⟨2, "bob", "Bob", "online", true⟩],
    [], [], [⟨7, 1, 2, "rejected"⟩], [], [], 1, 8, [], []⟩

def c8StateAcc : ServerState :=
  ⟨[⟨1, "alice", "Alice", "online", true⟩, ⟨2, "bob", "Bob", "online", true⟩],
    [], [], [⟨7, 1, 2, "accepted"⟩], [], [], 1, 8, [], []⟩

def c10State : ServerState :=
  ⟨[], [⟨4, "random", "Random", false, true⟩],
    [⟨4, 6, "owner", true⟩, ⟨4, 7, "member", true⟩], [], [], [], 1, 1, [], []⟩

/-! ### Helper lemmas shared across the development -/

/-- `updateStatus` only changes the `status` column, so `findById` still finds
the same row, with its status replaced. -/
theorem findUserById_updateUserStatus (us : List UserRow) (uid : Nat) (s : String) :
    findUserById (updateUserStatus us uid s) uid
      = (findUserById us uid).map (fun u => { u with status := s }) := by
  unfold findUserById updateUserStatus
  rw [List.find?_map]
  have hpq : ((fun u : UserRow => u.id == uid && u.isActive) ∘
      (fun u => if u.id == uid then { u with status := s } else u))
      = (fun u : UserRow => u.id == uid && u.isActive) := by
    funext u
    by_cases h : u.id = uid
    · simp [h]
    · simp [h]
  rw [hpq]
  cases hfind : us.find? (fun u => u.id == uid && u.isActive) with
  | none => rfl
  | some u0 =>
    have hid : u0.id = uid := by
      have hp := List.find?_some hfind
      simp only [Bool.and_eq_true, beq_iff_eq] at hp
      exact hp.1
    simp [hid]

/-- `Map.set` then `Map.get` returns the stored value. -/
theorem lookup_setEntry {α : Type} (l : List (Nat × α)) (k : Nat) (v : α) :
    lookup (setEntry l k v) k = some v := by
  unfold lookup setEntry
  by_cases h : (l.any fun p => p.1 == k) = true
  · rw [if_pos h, List.find?_map]
    have hpq : ((fun q : Nat × α => q.1 == k) ∘
        (fun p : Nat × α => if p.1 == k then (k, v) else p))
        = (fun p : Nat × α => p.1 == k) := by
      funext p
      by_cases hp : p.1 = k
      · simp [hp]
      · simp [hp]
    rw [hpq]
    have hsome : (l.find? (fun p => p.1 == k)).isSome := by
      rw [List.find?_isSome]
      rcases List.any_eq_true.1 h with ⟨p0, hp0, hk0⟩
      exact ⟨p0, hp0, hk0⟩
    rcases Option.isSome_iff_exists.1 hsome with ⟨q0, hq0⟩
    have hq : q0.1 = k := by simpa using List.find?_some hq0
    rw [hq0]
    simp [hq]
  · rw [if_neg h, List.find?_append]
    have hnone : l.find? (fun p => p.1 == k) = none := by
      rw [List.find?_eq_none]
      intro p hp hcontra
      exact h (List.any_eq_true.2 ⟨p, hp, hcontra⟩)
    simp [hnone]

/-- `Map.delete` then `Map.get` returns nothing. -/
theorem lookup_removeEntry {α : Type} (l : List (Nat × α)) (k : Nat) :
    lookup (removeEntry l k) k = none := by
  unfold lookup removeEntry
  have : (l.filter (fun p => p.1 != k)).find? (fun p => p.1 == k) = none := by
    rw [List.find?_eq_none]
    intro p hp hcontra
    have := (List.mem_filter.1 hp).2
    simp [bne] at this
    simp [this] at hcontra
  rw [this]
  rfl

/-- A successful `broadcastStatusUpdate` emits `user_status_changed` with the
given status exactly once. -/
theorem countStatusBroadcasts_broadcast (st : ServerState) (uid : Nat) (s : String)
    (u : UserRow) (hu : findUserById st.users uid = some u) :
    countStatusBroadcasts (broadcastStatusUpdate st uid s) s = 1 := by
  unfold broadcastStatusUpdate countStatusBroadcasts
  rw [hu]
  simp only [List.countP_cons, List.countP_map]
  have h1 : ((fun e : Emit => e.event == "user_status_changed" && e.arg == s) ∘
      (fun r : RoomRow => ⟨.room r.id, "refresh_room_users", ""⟩))
      = (fun _ : RoomRow => false) := by
    funext r
    simp
  rw [h1]
  simp

/-- A `connect` emits `user_status_changed{online}` exactly once — whether or
not the user was already online. -/
theorem countStatusBroadcasts_connect (st : ServerState) (uid sid : Nat)
    (u : UserRow) (hu : findUserById st.users uid = some u) :
    countStatusBroadcasts (connect st uid sid).2 "online" = 1 := by
  unfold connect
  simp only [countStatusBroadcasts, List.countP_cons, List.countP_append]
  have hu' : findUserById
      (updateUserStatus st.users uid "online") uid
      = some { u with status := "online" } := by
    rw [findUserById_updateUserStatus, hu]
    rfl
  have := countStatusBroadcasts_broadcast
    { st with
      connectedUsers := setEntry st.connectedUsers uid sid,
      userSessions := addSession st.userSessions uid sid,
      users := updateUserStatus st.users uid "online" }
    uid "online" { u with status := "online" } hu'
  simp [countStatusBroadcasts] at this
  simp [this]

/-- Dropping a prefix of characters the predicate accepts. -/
theorem dropWhile_replicate_append (p : Char → Bool) (c : Char) (hc : p c = true)
    (n : Nat) (l : List Char) :
    (List.replicate n c ++ l).dropWhile p = l.dropWhile p := by
  induction n with
  | zero => simp
  | succ n ih => simp [List.replicate_succ, List.dropWhile_cons, hc, ih]

/-- The 2001-character padded message trims to a single letter. -/
theorem jsTrim_c7LongContent : jsTrim c7LongContent = "a" := by
  show String.mk (jsTrimList (List.replicate 2000 ' ' ++ ['a'])) = "a"
  unfold jsTrimList
  rw [dropWhile_replicate_append Char.isWhitespace ' ' (by decide)]
  rfl

/-- The raw padded message is 2001 characters long. -/
theorem c7LongContent_length : c7LongContent.length = 2001 := by
  show (List.replicate 2000 ' ' ++ ['a']).length = 2001
  rw [List.length_append, List.length_replicate]
  rfl

/-- The padded message is not the empty string. -/
theorem c7LongContent_ne_empty : c7LongContent ≠ "" := by
  intro h
  have hlen : c7LongContent.length = 2001 := c7LongContent_length
  rw [h] at hlen
  simp at hlen

/-! ### C1: presence broadcasts on connect -/

/-- C1 counterexample: starting from a user with no live sessions, connecting
two sockets broadcasts `user_status_changed{online}` twice, not once — the
second registration for an already-online user emits an additional online
broadcast (the registry still shows two sessions, persisted status online). -/
theorem c1_counterexample :
    countStatusBroadcasts
      ((connect c1State 1 1).2 ++ (connect (connect c1State 1 1).1 1 2).2) "online" = 2 ∧
    countStatusBroadcasts
      ((connect c1State 1 1).2 ++ (connect (connect c1State 1 1).1 1 2).2) "online" ≠ 1 ∧
    sessionCount (connect (connect c1State 1 1).1 1 2).1 1 = 2 ∧
    persistedStatus (connect (connect c1State 1 1).1 1 2).1 1 = some "online" := by
  decide

/-- C1 (amended): each connection broadcasts online once, so two connections
broadcast twice; after both, the registry holds two sessions and the
persisted status is online. -/
theorem c1_online_broadcast_per_connection
    (st : ServerState) (uid sid1 sid2 : Nat) (u : UserRow)
    (hu : findUserById st.users uid = some u)
    (hfresh : lookup st.userSessions uid = none)
    (hdiff : sid1 ≠ sid2) :
    countStatusBroadcasts (connect st uid sid1).2 "online" = 1 ∧
    countStatusBroadcasts (connect (connect st uid sid1).1 uid sid2).2 "online" = 1 ∧
    sessionCount (connect (connect st uid sid1).1 uid sid2).1 uid = 2 ∧
    persistedStatus (connect (connect st uid sid1).1 uid sid2).1 uid = some "online" := by
  have hu1 : findUserById (updateUserStatus st.users uid "online") uid
      = some { u with status := "online" } := by
    rw [findUserById_updateUserStatus, hu]
    rfl
  have hu2 : findUserById
      (updateUserStatus (updateUserStatus st.users uid "online") uid "online") uid
      = some { u with status := "online" } := by
    rw [findUserById_updateUserStatus, hu1]
    rfl
  have hfind0 : st.userSessions.find? (fun p => p.1 == uid) = none := by
    unfold lookup at hfresh
    exact Option.map_eq_none'.1 hfresh
  have hadd1 : addSession st.userSessions uid sid1 = st.userSessions ++ [(uid, [sid1])] := by
    unfold addSession
    rw [hfresh]
  have hl1 : lookup (st.userSessions ++ [(uid, [sid1])]) uid = some [sid1] := by
    unfold lookup
    rw [List.find?_append, hfind0]
    simp
  have hcont : ([sid1].contains sid2) = false := by
    simp [Ne.symm hdiff]
  have hadd2 : addSession (st.userSessions ++ [(uid, [sid1])]) uid sid2
      = setEntry (st.userSessions ++ [(uid, [sid1])]) uid [sid1, sid2] := by
    unfold addSession
    simp [hl1, hcont, Ne.symm hdiff]
  refine ⟨countStatusBroadcasts_connect st uid sid1 u hu, ?_, ?_, ?_⟩
  · exact countStatusBroadcasts_connect (connect st uid sid1).1 uid sid2
      { u with status := "online" } hu1
  · show sessionCount
      { (connect st uid sid1).1 with
        connectedUsers := setEntry (connect st uid sid1).1.connectedUsers uid sid2,
        userSessions := addSession (connect st uid sid1).1.userSessions uid sid2,
        users := updateUserStatus (connect st uid sid1).1.users uid "online" } uid = 2
    unfold sessionCount
    show (match lookup (addSession (addSession st.userSessions uid sid1) uid sid2) uid with
      | some sids => sids.length
      | none => 0) = 2
    rw [hadd1, hadd2, lookup_setEntry]
    rfl
  · show persistedStatus
      { (connect st uid sid1).1 with
        connectedUsers := setEntry (connect st uid sid1).1.connectedUsers uid sid2,
        userSessions := addSession (connect st uid sid1).1.userSessions uid sid2,
        users := updateUserStatus (connect st uid sid1).1.users uid "online" } uid
      = some "online"
    unfold persistedStatus
    show (findUserById
      (updateUserStatus (updateUserStatus st.users uid "online") uid "online") uid).map
        (fun u => u.status) = some "online"
    rw [hu2]
    rfl

theorem c1_witness :
    countStatusBroadcasts (connect c1State 1 1).2 "online" = 1 ∧
    countStatusBroadcasts (connect (connect c1State 1 1).1 1 2).2 "online" = 1 ∧
    sessionCount (connect (connect c1State 1 1).1 1 2).1 1 = 2 ∧
    persistedStatus (connect (connect c1State 1 1).1 1 2).1 1 = some "online" :=
  c1_online_broadcast_per_connection c1State 1 1 2 ⟨1, "alice", "Alice", "offline", true⟩
    (by decide) (by decide) (by decide)

/-! ### C2: disconnect semantics -/

/-- C2: with several live sessions, a disconnect changes no persisted state
and emits nothing; the last session's disconnect removes both presence
entries, persists offline, and broadcasts offline exactly once. -/
theorem c2_disconnect_presence
    (st : ServerState) (uid sid : Nat) (sids : List Nat) (u : UserRow)
    (hs : lookup st.userSessions uid = some sids)
    (hnodup : sids.Nodup)
    (hmem : sid ∈ sids)
    (hu : findUserById st.users uid = some u) :
    (2 ≤ sids.length →
      (disconnect st uid sid).1.users = st.users ∧
      (disconnect st uid sid).2 = [] ∧
      persistedStatus (disconnect st uid sid).1 uid = persistedStatus st uid ∧
      0 < sessionCount (disconnect st uid sid).1 uid) ∧
    (sids = [sid] →
      countStatusBroadcasts (disconnect st uid sid).2 "offline" = 1 ∧
      persistedStatus (disconnect st uid sid).1 uid = some "offline" ∧
      lookup (disconnect st uid sid).1.userSessions uid = none ∧
      lookup (disconnect st uid sid).1.connectedUsers uid = none) := by
  constructor
  · intro hlen
    have hne : sids.filter (fun s => s != sid) ≠ [] := by
      intro hemp
      have hall := List.filter_eq_nil_iff.1 hemp
      have hcount : sids.count sid = sids.length := by
        rw [List.count_eq_length]
        intro b hb
        have hb' := hall b hb
        simp [bne_iff_ne] at hb'
        exact hb'.symm
      have hle := List.nodup_iff_count_le_one.1 hnodup sid
      omega
    have hempty : (sids.filter (fun s => s != sid)).isEmpty = false := by
      cases hE : (sids.filter (fun s => s != sid)).isEmpty
      · rfl
      · exact absurd (List.isEmpty_iff.1 hE) hne
    have hd : disconnect st uid sid
        = ({ st with
              userSessions := setEntry st.userSessions uid
                (sids.filter (fun s => s != sid)) }, []) := by
      unfold disconnect
      rw [hs]
      simp [hempty]
    rw [hd]
    refine ⟨rfl, rfl, rfl, ?_⟩
    show 0 < sessionCount
      { st with
        userSessions := (setEntry st.userSessions uid (sids.filter (fun s => s != sid))) } uid
    unfold sessionCount
    show 0 < (match lookup (setEntry st.userSessions uid (sids.filter (fun s => s != sid))) uid with
      | some sids => sids.length
      | none => 0)
    rw [lookup_setEntry]
    exact List.length_pos.2 hne
  · intro hsid
    subst hsid
    have hfilter : ([sid].filter (fun s => s != sid)) = [] := by simp
    have hd : disconnect st uid sid
        = ({ st with
              userSessions := removeEntry st.userSessions uid,
              connectedUsers := removeEntry st.connectedUsers uid,
              users := updateUserStatus st.users uid "offline" },
           broadcastStatusUpdate
             { st with
                userSessions := removeEntry st.userSessions uid,
                connectedUsers := removeEntry st.connectedUsers uid,
                users := updateUserStatus st.users uid "offline" } uid "offline") := by
      unfold disconnect
      rw [hs]
      simp [hfilter]
    have hu' : findUserById (updateUserStatus st.users uid "offline") uid
        = some { u with status := "offline" } := by
      rw [findUserById_updateUserStatus, hu]
      rfl
    rw [hd]
    refine ⟨?_, ?_, ?_, ?_⟩
    · exact countStatusBroadcasts_broadcast _ uid "offline" { u with status := "offline" } hu'
    · unfold persistedStatus
      show (findUserById (updateUserStatus st.users uid "offline") uid).map
        (fun u => u.status) = some "offline"
      rw [hu']
      rfl
    · exact lookup_removeEntry st.userSessions uid
    · exact lookup_removeEntry st.connectedUsers uid

theorem c2_witness :
    ((disconnect c2StateTwo 1 1).1.users = c2StateTwo.users ∧
     (disconnect c2StateTwo 1 1).2 = [] ∧
     persistedStatus (disconnect c2StateTwo 1 1).1 1 = persistedStatus c2StateTwo 1 ∧
     0 < sessionCount (disconnect c2StateTwo 1 1).1 1) ∧
    (countStatusBroadcasts (disconnect c2StateOne 1 5).2 "offline" = 1 ∧
     persistedStatus (disconnect c2StateOne 1 5).1 1 = some "offline" ∧
     lookup (disconnect c2StateOne 1 5).1.userSessions 1 = none ∧
     lookup (disconnect c2StateOne 1 5).1.connectedUsers 1 = none) :=
  ⟨(c2_disconnect_presence c2StateTwo 1 1 [1, 2] ⟨1, "alice", "Alice", "online", true⟩
      (by decide) (by decide) (by decide) (by decide)).1 (by decide),
   (c2_disconnect_presence c2StateOne 1 5 [5] ⟨1, "alice", "Alice", "online", true⟩
      (by decide) (by decide) (by decide) (by decide)).2 rfl⟩

/-! ### C3: user-scoped delivery -/

/-- C3 counterexample: user 2 registers sockets 10 and 11, but `notifyUser`
delivers only to socket 11 — socket 10, a live registered connection of the
same user, receives nothing. -/
theorem c3_counterexample :
    lookup ((connect (connect c3State 2 10).1 2 11).1).userSessions 2 = some [10, 11] ∧
    notifyUser (connect (connect c3State 2 10).1 2 11).1 2 "new_dm"
      = [⟨.sock 11, "new_dm", ""⟩] ∧
    ¬ (⟨.sock 10, "new_dm", ""⟩
        ∈ notifyUser (connect (connect c3State 2 10).1 2 11).1 2 "new_dm") := by
  decide

/-- C3 (amended): a user-scoped notification reaches exactly the one socket
stored for the user (the most recent connection), is a no-op when the user
has no entry, and the HTTP-side scan likewise delivers at most once. -/
theorem c3_user_delivery_single_socket
    (st : ServerState) (uid : Nat) (ev : String) (sockets : List (Nat × Nat)) :
    (∀ sid, lookup st.connectedUsers uid = some sid →
        notifyUser st uid ev = [⟨.sock sid, ev, ""⟩]) ∧
    (lookup st.connectedUsers uid = none → notifyUser st uid ev = []) ∧
    (notifyUserViaSocket sockets uid ev).length ≤ 1 := by
  refine ⟨?_, ?_, ?_⟩
  · intro sid hsid
    unfold lookup at hsid
    unfold notifyUser
    cases hf : st.connectedUsers.find? (fun p => p.1 == uid) with
    | none => rw [hf] at hsid; simp at hsid
    | some p =>
      rw [hf] at hsid
      simp only [Option.map_some'] at hsid
      have hp : p.2 = sid := Option.some.inj hsid
      show [(⟨.sock p.2, ev, ""⟩ : Emit)] = [⟨.sock sid, ev, ""⟩]
      rw [hp]
  · intro hnone
    unfold lookup at hnone
    unfold notifyUser
    cases hf : st.connectedUsers.find? (fun p => p.1 == uid) with
    | none => rfl
    | some p => rw [hf] at hnone; simp at hnone
  · unfold notifyUserViaSocket
    cases hf : sockets.find? (fun p => p.2 == uid) <;> simp

theorem c3_witness :
    notifyUser c3WState 3 "new_dm" = [⟨.sock 9, "new_dm", ""⟩] ∧
    notifyUser c3WState 4 "new_dm" = [] ∧
    (notifyUserViaSocket [(9, 3)] 3 "new_dm").length ≤ 1 :=
  ⟨(c3_user_delivery_single_socket c3WState 3 "new_dm" [(9, 3)]).1 9 (by decide),
   (c3_user_delivery_single_socket c3WState 4 "new_dm" [(9, 3)]).2.1 (by decide),
   (c3_user_delivery_single_socket c3WState 3 "new_dm" [(9, 3)]).2.2⟩

/-! ### C4: conversation visibility -/

/-- C4: hiding is one-sided (A's list drops the conversation, B's keeps it);
a one-sided delete keeps the conversation active and visible to B; after
both delete, the conversation is inactive, invisible to both, and every
message between the two participants is soft-deleted. -/
theorem c4_conversation_visibility
    (st : ServerState) (A B cid t : Nat) (hAB : A ≠ B)
    (hconvs : st.convs = [⟨cid, A, B, true, false, false, false, false, t⟩]) :
    (dmConversations (hideConversation st A cid).1.convs A = [] ∧
     dmConversations (hideConversation st A cid).1.convs B
       = [⟨cid, A, B, true, true, false, false, false, t⟩]) ∧
    ((deleteConversation st A cid).1.convs
       = [⟨cid, A, B, true, false, false, true, false, t⟩] ∧
     (deleteConversation st A cid).1.messages = st.messages ∧
     dmConversations (deleteConversation st A cid).1.convs B
       = [⟨cid, A, B, true, false, false, true, false, t⟩]) ∧
    ((deleteConversation (deleteConversation st A cid).1 B cid).1.convs
       = [⟨cid, A, B, false, false, false, true, true, t⟩] ∧
     dmConversations
       (deleteConversation (deleteConversation st A cid).1 B cid).1.convs A = [] ∧
     dmConversations
       (deleteConversation (deleteConversation st A cid).1 B cid).1.convs B = [] ∧
     ∀ m ∈ (deleteConversation (deleteConversation st A cid).1 B cid).1.messages,
       (m.senderId = A ∨ m.senderId = B) →
       (m.recipientId = some A ∨ m.recipientId = some B) → m.isDeleted = true) := by
  have hBA : B ≠ A := Ne.symm hAB
  have hhide : hideConversation st A cid
      = ({ st with convs := [⟨cid, A, B, true, true, false, false, false, t⟩] }, true) := by
    unfold hideConversation
    rw [hconvs]
    simp [hAB]
  have hdel1 : deleteConversation st A cid
      = ({ st with convs := [⟨cid, A, B, true, false, false, true, false, t⟩] }, true) := by
    unfold deleteConversation
    rw [hconvs]
    simp [hAB]
  have hdel2 : deleteConversation
      ({ st with convs := [⟨cid, A, B, true, false, false, true, false, t⟩] }) B cid
      = ({ st with
            convs := [⟨cid, A, B, false, false, false, true, true, t⟩],
            messages := st.messages.map (fun m =>
              if (m.senderId == A || m.senderId == B) &&
                 (m.recipientId == some A || m.recipientId == some B)
              then { m with isDeleted := true } else m) }, true) := by
    unfold deleteConversation
    simp [hAB, hBA]
  refine ⟨?_, ?_, ?_⟩
  · rw [hhide]
    constructor
    · simp [dmConversations, convSelectedFor, hAB, hBA]
    · simp [dmConversations, convSelectedFor, hAB, hBA, List.insertionSort, List.orderedInsert]
  · rw [hdel1]
    refine ⟨rfl, rfl, ?_⟩
    simp [dmConversations, convSelectedFor, hAB, hBA, List.insertionSort, List.orderedInsert]
  · rw [hdel1, hdel2]
    refine ⟨rfl, ?_, ?_, ?_⟩
    · simp [dmConversations, convSelectedFor, hAB, hBA]
    · simp [dmConversations, convSelectedFor, hAB, hBA]
    · intro m hm hsender hrecip
      rcases List.mem_map.1 hm with ⟨m0, hm0, rfl⟩
      by_cases hc : ((m0.senderId == A || m0.senderId == B) &&
          (m0.recipientId == some A || m0.recipientId == some B)) = true
      · simp [hc]
      · exfalso
        apply hc
        simp only [if_neg hc] at hsender hrecip
        simp [Bool.and_eq_true, Bool.or_eq_true, beq_iff_eq]
        constructor
        · rcases hsender with h | h
          · exact Or.inl h
          · exact Or.inr h
        · rcases hrecip with h | h
          · exact Or.inl h
          · exact Or.inr h

theorem c4_witness :
    dmConversations (hideConversation c4State 1 30).1.convs 1 = [] ∧
    dmConversations (hideConversation c4State 1 30).1.convs 2
      = [⟨30, 1, 2, true, true, false, false, false, 5⟩] :=
  (c4_conversation_visibility c4State 1 2 30 5 (by decide) rfl).1

/-! ### C5: friend removal notifications -/

/-- C5 (code-bug evaluation): removing an accepted friendship deletes the row
— afterwards `friendshipStatus` answers `none` from both sides — but the
route emits no socket event at all, so neither party receives
`friends_list_updated`, contradicting the claim (and `server.js`, which
imports a `setSocketIO` hook this route module does not provide). -/
theorem c5_remove_friend_no_push :
    deleteFriendship
        ⟨[⟨1, "alice", "Alice", "online", true⟩, ⟨2, "bob", "Bob", "online", true⟩],
          [], [], [⟨7, 1, 2, "accepted"⟩], [], [], 1, 8, [], []⟩ 1 7
      = (⟨[⟨1, "alice", "Alice", "online", true⟩, ⟨2, "bob", "Bob", "online", true⟩],
          [], [], [], [], [], 1, 8, [], []⟩, [], true) ∧
    friendshipStatus
        (deleteFriendship
          ⟨[⟨1, "alice", "Alice", "online", true⟩, ⟨2, "bob", "Bob", "online", true⟩],
            [], [], [⟨7, 1, 2, "accepted"⟩], [], [], 1, 8, [], []⟩ 1 7).1 1 2 = "none" ∧
    friendshipStatus
        (deleteFriendship
          ⟨[⟨1, "alice", "Alice", "online", true⟩, ⟨2, "bob", "Bob", "online", true⟩],
            [], [], [⟨7, 1, 2, "accepted"⟩], [], [], 1, 8, [], []⟩ 1 7).1 2 1 = "none" := by
  decide

/-! ### C6: room auto-deletion -/

/-- C6: when a non-main room's sole active member leaves, the room row flips
`is_active = false`; for the main room the leave request is rejected outright
and the state is unchanged (so it is never auto-deleted). -/
theorem c6_room_auto_deletion
    (st : ServerState) (uid rid : Nat) (r : RoomRow) (mem : MemberRow)
    (hroom : st.rooms.find? (fun r => r.id == rid && r.isActive) = some r)
    (hmem : st.members.find? (fun m =>
        m.roomId == rid && m.userId == uid && m.isActive) = some mem) :
    (r.name ≠ "main" →
      (∀ m ∈ st.members, m.roomId = rid → m.isActive = true → m.userId = uid) →
      (leaveRoom st uid rid).2 = .ok true ∧
      (∀ r' ∈ (leaveRoom st uid rid).1.rooms, r'.id = rid → r'.isActive = false)) ∧
    (r.name = "main" → leaveRoom st uid rid = (st, .mainRoomForbidden)) := by
  constructor
  · intro hname hlast
    have hmain : isMainRoom (st.rooms.find? (fun r => r.id == rid && r.isActive)) = false := by
      rw [hroom]
      unfold isMainRoom
      simp [hname]
    have hcount0 : st.members.countP (fun m =>
        m.roomId == rid && m.userId != uid && m.isActive) = 0 := by
      rw [List.countP_eq_zero]
      intro m hm hcontra
      simp only [Bool.and_eq_true, beq_iff_eq, bne_iff_ne] at hcontra
      exact hcontra.1.2 (hlast m hm hcontra.1.1 hcontra.2)
    have hd : leaveRoom st uid rid
        = ({ st with
              members := st.members.map (fun m =>
                if m.roomId == rid && m.userId == uid then { m with isActive := false } else m),
              rooms := st.rooms.map (fun r =>
                if r.id == rid then { r with isActive := false } else r) }, .ok true) := by
      unfold leaveRoom
      rw [hmem]
      simp [hmain, hcount0]
      intro x hx h1
      by_cases hc : x.roomId = rid ∧ x.userId = uid
      · simp [hc]
      · rw [if_neg hc] at h1 ⊢
        cases hA : x.isActive with
        | false => rfl
        | true => exact absurd ⟨h1, hlast x hx h1 hA⟩ hc
    rw [hd]
    refine ⟨rfl, ?_⟩
    intro r' hr' hid
    rcases List.mem_map.1 hr' with ⟨r0, hr0, rfl⟩
    by_cases hcond : (r0.id == rid) = true
    · rw [if_pos hcond]
    · rw [if_neg hcond] at hid ⊢
      exact absurd hid (by simpa using hcond)
  · intro hname
    have hmain : isMainRoom (st.rooms.find? (fun r => r.id == rid && r.isActive)) = true := by
      rw [hroom]
      unfold isMainRoom
      simp [hname]
    unfold leaveRoom
    rw [hmem]
    simp [hmain]

theorem c6_witness :
    ((leaveRoom c6State 6 4).2 = .ok true ∧
     (∀ r' ∈ (leaveRoom c6State 6 4).1.rooms, r'.id = 4 → r'.isActive = false)) ∧
    leaveRoom c6MainState 6 1 = (c6MainState, .mainRoomForbidden) :=
  ⟨(c6_room_auto_deletion c6State 6 4 ⟨4, "random", "Random", false, true⟩
      ⟨4, 6, "owner", true⟩ (by decide) (by decide)).1 (by decide) (by decide),
   (c6_room_auto_deletion c6MainState 6 1 ⟨1, "main", "Main", false, true⟩
      ⟨1, 6, "member", true⟩ (by decide) (by decide)).2 rfl⟩

/-! ### C7: send_message validation -/

/-- C7 counterexample: 2000 spaces followed by one letter trims to length 1
(within the claim's stated bound) and the sender is an active member, yet the
handler rejects it with an error and persists nothing, because the length
check runs on the raw, untrimmed content (2001 characters). -/
theorem c7_counterexample :
    1 ≤ (jsTrim c7LongContent).length ∧ (jsTrim c7LongContent).length ≤ 2000 ∧
    (c7State.members.find? (fun m => m.roomId == 5 && m.userId == 1 && m.isActive)).isSome ∧
    sendMessage c7State 1 5 c7LongContent
      = (c7State, [⟨.sender, "error", "Message too long (max 2000 characters)"⟩]) := by
  refine ⟨?_, ?_, ?_, ?_⟩
  · rw [jsTrim_c7LongContent]
    decide
  · rw [jsTrim_c7LongContent]
    decide
  · decide
  · have h1 : (c7LongContent == "") = false := beq_eq_false_iff_ne.2 c7LongContent_ne_empty
    unfold sendMessage
    rw [jsTrim_c7LongContent, h1, c7LongContent_length]
    simp
    decide

/-- C7 (amended): whitespace-only content and content whose raw length
exceeds 2000 are rejected with a single `error` emission to the sender only
and no state change; content with nonempty trim and raw length at most 2000
sent by an active member is persisted (trimmed) and broadcast to the room. -/
theorem c7_send_message_validation (st : ServerState) (uid rid : Nat) :
    (∀ c : String, jsTrim c = "" →
      (sendMessage st uid rid c).1 = st ∧
      (sendMessage st uid rid c).2.map Emit.target = [.sender] ∧
      (sendMessage st uid rid c).2.map Emit.event = ["error"]) ∧
    (∀ c : String, 2000 < c.length →
      (sendMessage st uid rid c).1 = st ∧
      (sendMessage st uid rid c).2.map Emit.target = [.sender] ∧
      (sendMessage st uid rid c).2.map Emit.event = ["error"]) ∧
    (∀ c : String, jsTrim c ≠ "" → c.length ≤ 2000 →
      ∀ mem u,
        st.members.find? (fun m =>
          m.roomId == rid && m.userId == uid && m.isActive) = some mem →
        findUserById st.users uid = some u →
        sendMessage st uid rid c
          = ({ st with
                messages := st.messages
                  ++ [⟨st.nextMessageId, uid, some rid, none, jsTrim c, false⟩],
                nextMessageId := st.nextMessageId + 1 },
             [⟨.room rid, "new_message", jsTrim c⟩])) := by
  refine ⟨?_, ?_, ?_⟩
  · intro c hc
    unfold sendMessage
    rw [hc]
    simp
  · intro c hc
    unfold sendMessage
    by_cases h1 : (c == "" || (jsTrim c).length == 0) = true
    · rw [if_pos h1]
      simp
    · rw [if_neg h1, if_pos hc]
      simp
  · intro c htrim hlen mem u hmem hu
    have hne : c ≠ "" := by
      intro hc
      apply htrim
      rw [hc]
      rfl
    have h1 : (c == "" || (jsTrim c).length == 0) = false := by
      rw [Bool.or_eq_false_iff]
      constructor
      · exact beq_eq_false_iff_ne.2 hne
      · have : jsTrim c ≠ "" := htrim
        have hlen0 : (jsTrim c).length ≠ 0 := by
          intro h0
          apply this
          have : (jsTrim c).data = [] := List.length_eq_zero.1 h0
          cases hE : jsTrim c with
          | mk d =>
            rw [hE] at this
            simp only [String.data] at this
            subst this
            rfl
        simpa using hlen0
    unfold sendMessage
    rw [h1]
    simp only [Bool.false_eq_true, if_false]
    rw [if_neg (by omega : ¬ 2000 < c.length)]
    rw [hmem, hu]

theorem c7_witness :
    ((sendMessage c7State 1 5 "  ").1 = c7State ∧
     (sendMessage c7State 1 5 "  ").2.map Emit.target = [.sender] ∧
     (sendMessage c7State 1 5 "  ").2.map Emit.event = ["error"]) ∧
    ((sendMessage c7State 1 5 c7LongContent).1 = c7State ∧
     (sendMessage c7State 1 5 c7LongContent).2.map Emit.target = [.sender] ∧
     (sendMessage c7State 1 5 c7LongContent).2.map Emit.event = ["error"]) ∧
    sendMessage c7State 1 5 "hi "
      = ({ c7State with
            messages := c7State.messages
              ++ [⟨c7State.nextMessageId, 1, some 5, none, jsTrim "hi ", false⟩],
            nextMessageId := c7State.nextMessageId + 1 },
         [⟨.room 5, "new_message", jsTrim "hi "⟩]) :=
  ⟨(c7_send_message_validation c7State 1 5).1 "  " (by decide),
   (c7_send_message_validation c7State 1 5).2.1 c7LongContent
     (by rw [c7LongContent_length]; decide),
   (c7_send_message_validation c7State 1 5).2.2 "hi " (by decide) (by decide)
     ⟨5, 1, "member", true⟩ ⟨1, "alice", "Alice", "online", true⟩ (by decide) (by decide)⟩

/-! ### C8: friend request uniqueness -/

/-- C8: re-requesting over a rejected row flips that row to pending in place
(still exactly one row, no insert); requesting over an accepted row returns
Conflict and leaves the table unchanged. -/
theorem c8_friend_request_uniqueness
    (st : ServerState) (uid target : Nat) (f : FriendRow) (u : UserRow)
    (hne : uid ≠ target)
    (htarget : st.users.find? (fun v => v.id == target && v.isActive) = some u)
    (hfriends : st.friends = [f])
    (hpair : (f.requesterId = uid ∧ f.addresseeId = target) ∨
             (f.requesterId = target ∧ f.addresseeId = uid)) :
    (f.status = "rejected" →
      sendFriendRequest st uid target
        = ({ st with friends := [{ f with status := "pending" }] }, .ok)) ∧
    (f.status = "accepted" →
      sendFriendRequest st uid target = (st, .conflictAccepted)) := by
  have hself : (uid == target) = false := beq_eq_false_iff_ne.2 hne
  have hfind : st.friends.find? (fun g =>
      (g.requesterId == uid && g.addresseeId == target) ||
      (g.requesterId == target && g.addresseeId == uid)) = some f := by
    rw [hfriends]
    rcases hpair with ⟨h1, h2⟩ | ⟨h1, h2⟩ <;> simp [h1, h2]
  constructor
  · intro hstatus
    unfold sendFriendRequest
    rw [hself]
    simp only [Bool.false_eq_true, if_false]
    rw [htarget, hfind]
    simp [hstatus, hfriends]
  · intro hstatus
    unfold sendFriendRequest
    rw [hself]
    simp only [Bool.false_eq_true, if_false]
    rw [htarget, hfind]
    simp [hstatus]

theorem c8_witness :
    sendFriendRequest c8State 1 2 = ({ c8State with friends := [⟨7, 1, 2, "pending"⟩] }, .ok) ∧
    sendFriendRequest c8StateAcc 1 2 = (c8StateAcc, .conflictAccepted) :=
  ⟨(c8_friend_request_uniqueness c8State 1 2 ⟨7, 1, 2, "rejected"⟩
      ⟨2, "bob", "Bob", "online", true⟩ (by decide) (by decide) rfl (Or.inl ⟨rfl, rfl⟩)).1 rfl,
   (c8_friend_request_uniqueness c8StateAcc 1 2 ⟨7, 1, 2, "accepted"⟩
      ⟨2, "bob", "Bob", "online", true⟩ (by decide) (by decide) rfl (Or.inl ⟨rfl, rfl⟩)).2 rfl⟩

/-! ### C9: the room list query -/

/-- C9 counterexample: room `alpha` displays as `Zebra` and room `beta` as
`Apple`; `getUserRooms` returns them in `name` order (`alpha` before `beta`),
which is not alphabetical by display name (`Zebra` precedes `Apple`). -/
theorem c9_counterexample :
    getUserRooms [⟨1, "alpha", "Zebra", false, true⟩, ⟨2, "beta", "Apple", false, true⟩]
        [⟨1, 7, "member", true⟩, ⟨2, 7, "member", true⟩] 7
      = [⟨1, "alpha", "Zebra", false, true⟩, ⟨2, "beta", "Apple", false, true⟩] ∧
    ¬ sortedByDisplayName
        (getUserRooms [⟨1, "alpha", "Zebra", false, true⟩, ⟨2, "beta", "Apple", false, true⟩]
          [⟨1, 7, "member", true⟩, ⟨2, 7, "member", true⟩] 7) := by
  decide

/-- C9 (amended): `getUserRooms` returns exactly the active rooms in which
the user holds an active membership row, ordered by the room's `name` column
(not by display name). -/
theorem c9_user_rooms_membership_and_order (st : ServerState) (uid : Nat) :
    (∀ r, r ∈ getUserRooms st.rooms st.members uid ↔
      (r ∈ st.rooms ∧ r.isActive = true ∧
        ∃ m ∈ st.members, m.roomId = r.id ∧ m.userId = uid ∧ m.isActive = true)) ∧
    (getUserRooms st.rooms st.members uid).Pairwise roomNameLe := by
  constructor
  · intro r
    unfold getUserRooms
    rw [(List.perm_insertionSort roomNameLe _).mem_iff]
    simp only [List.mem_map, List.mem_filter, List.mem_flatMap, Bool.and_eq_true, beq_iff_eq]
    constructor
    · rintro ⟨a, ⟨⟨r1, hr1, m1, ⟨hm1, hmid⟩, rfl⟩, ⟨hmu, hract⟩, hmact⟩, rfl⟩
      exact ⟨hr1, hract, m1, hm1, hmid, hmu, hmact⟩
    · rintro ⟨hr, hact, m, hm, hmid, hmu, hmact⟩
      exact ⟨(r, m), ⟨⟨r, hr, m, ⟨hm, hmid⟩, rfl⟩, ⟨hmu, hact⟩, hmact⟩, rfl⟩
  · unfold getUserRooms
    exact List.sorted_insertionSort roomNameLe _

/-! ### C10: the owner leave guard -/

/-- C10: an owner's leave request on a (non-main) room that still has another
active member is rejected with an error and changes nothing. -/
theorem c10_owner_leave_guard
    (st : ServerState) (uid rid : Nat) (mem : MemberRow)
    (hmem : st.members.find? (fun m =>
        m.roomId == rid && m.userId == uid && m.isActive) = some mem)
    (hrole : mem.role = "owner")
    (hnotmain : ∀ r, st.rooms.find? (fun r => r.id == rid && r.isActive) = some r →
        r.name ≠ "main")
    (hother : ∃ m ∈ st.members, m.roomId = rid ∧ m.userId ≠ uid ∧ m.isActive = true) :
    leaveRoom st uid rid = (st, .ownerForbidden) := by
  have hmain : isMainRoom (st.rooms.find? (fun r => r.id == rid && r.isActive)) = false := by
    cases hr : st.rooms.find? (fun r => r.id == rid && r.isActive) with
    | none => rfl
    | some r =>
      unfold isMainRoom
      simp [hnotmain r hr]
  have hcount : 0 < st.members.countP (fun m =>
      m.roomId == rid && m.userId != uid && m.isActive) := by
    rw [List.countP_pos_iff]
    rcases hother with ⟨m, hm, h1, h2, h3⟩
    exact ⟨m, hm, by simp [h1, h2, h3]⟩
  unfold leaveRoom
  rw [hmem]
  simp [hmain, hrole, hcount]

theorem c10_witness : leaveRoom c10State 6 4 = (c10State, .ownerForbidden) :=
  c10_owner_leave_guard c10State 6 4 ⟨4, 6, "owner", true⟩ (by decide) rfl
    (by
      intro r hr
      have h := Option.some.inj hr
      rw [← h]
      decide)
    ⟨⟨4, 7, "member", true⟩, by decide, rfl, by decide, rfl⟩

end WebChat
